import Mathlib

/-!
Shallow embedding of the umcd protocol session (umcd_protocol.cpp, the
request/response engine of the wesnoth user-made-content daemon).

The session logic (constructor, copy constructor, complete_request,
async_send_reply, async_send_error, async_send_invalid_packet,
read_request_body, dispatch_request, handle_request) is translated from the
source. Each asio completion callback becomes a pure function from the
protocol state and the delivered completion values to the new state plus the
ordered list of observable events (log statements, issued asynchronous
operations, handler executions). Collaborators whose code is not part of the
sample (wml_reply, the WML parser, the action descriptors, the error
category) are modelled from the specification at their interface and say so
in their doc comments.
-/

namespace Umcd

mutual
/-- Modelled from the spec: the structured Document (the config class is not
in the sample): an ordered tree; each node carries attribute bindings and an
ordered sequence of named child documents. -/
inductive Document where
  | node (attrs : List (String × String)) (children : DocList)

/-- Modelled from the spec: an ordered sequence of named child documents. -/
inductive DocList where
  | nil
  | cons (name : String) (d : Document) (rest : DocList)
end

/-- The default-constructed (empty) document. -/
def Document.empty : Document := .node [] .nil

mutual
/-- Modelled from the spec: serialization of a document into wire bytes,
mirroring the attribute/child tree. -/
def Document.serialize : Document → String
  | .node attrs children =>
      (attrs.map (fun a => a.1 ++ "=" ++ a.2 ++ ";")).foldl (fun x y => x ++ y) ""
        ++ DocList.serialize children

/-- Modelled from the spec: serialization of the child sequence. -/
def DocList.serialize : DocList → String
  | .nil => ""
  | .cons n d rest =>
      "[" ++ n ++ "]" ++ Document.serialize d ++ "[/" ++ n ++ "]" ++ DocList.serialize rest
end

/-- A boost::system error code at its interface: falsy success, or an error
carrying the text of message(). -/
inductive IOResult where
  | ok
  | err (msg : String)
deriving DecidableEq

/-- The two protocol error conditions used by the session
(umcd_error.hpp is not in the sample). -/
inductive ErrorCode where
  | invalid_packet
  | request_header_too_large
deriving DecidableEq

/-- Modelled from the spec: the sanitized client-safe message of each error
condition (the error category is not in the sample). It is a fixed function
of the condition alone. -/
def ErrorCode.message : ErrorCode → String
  | .invalid_packet => "Invalid packet."
  | .request_header_too_large => "Request header too large."

/-- A std::exception at its interface: the text of what(). -/
structure StdException where
  what : String
deriving DecidableEq

/-- A twml_exception at its interface: a user-facing message, safe for the
client, and a developer message for server-side logs. -/
structure TwmlException where
  user_message : String
  dev_message : String
deriving DecidableEq

/-- Modelled from the spec: the outcome of parsing the received body bytes
(peek_request_name and the read into a config are not in the sample). A body
either fails request-name extraction, has a readable name but fails the full
parse, or parses to a kind name plus a document. -/
inductive RawBody where
  | peekFails (e : StdException)
  | readFails (name : String) (e : StdException)
  | wellFormed (name : String) (doc : Document)

/-- Modelled from the spec: an action descriptor: the kind-specific schema
validator (none on acceptance, the validation failure otherwise) and the
handler, identified by a number; executing it is observable as an event. -/
structure ActionInfo where
  validator : Document → Option TwmlException
  handler : Nat

/-- The action factory: request-kind name to descriptor, in registration
order; make_product is an exact, case-sensitive lookup. -/
def make_product (factory : List (String × ActionInfo)) (name : String) :
    Option ActionInfo :=
  factory.lookup name

/-- Modelled from the spec: the wml_reply (not in the sample): a status
indicator plus either the single error message or a success payload. -/
structure WmlReply where
  is_error : Bool
  error_message : String
  payload : Document

/-- The default-constructed reply. -/
def WmlReply.empty : WmlReply := ⟨false, "", Document.empty⟩

/-- Modelled from the spec: make_error_reply (special_packet.hpp is not in
the sample): build an error reply carrying exactly the given message. -/
def make_error_reply (msg : String) : WmlReply := ⟨true, msg, Document.empty⟩

/-- Modelled from the spec: reply serialization to wire bytes: the status
indicator plus either the error message or the serialized payload. -/
def WmlReply.to_buffers (r : WmlReply) : String :=
  if r.is_error then "[error]" ++ r.error_message ++ "[/error]"
  else "[data]" ++ r.payload.serialize ++ "[/data]"

/-- Modelled from the spec: the configured maximum declared body size
(declared in the class header, which is not in the sample; the spec scenario
uses 1000000). -/
def REQUEST_HEADER_MAX_SIZE : Nat := 1000000

/-- Modelled from the spec: the fixed width of the decimal ASCII length
field (declared in the class header, which is not in the sample). -/
def REQUEST_HEADER_SIZE_FIELD_LENGTH : Nat := 8

/-- The largest value a std::size_t holds on the 64-bit targets the daemon
runs on. -/
def SIZE_T_MAX : Nat := 2 ^ 64 - 1

/-- The numeric value of a list of decimal digit characters. -/
def digitsVal (l : List Char) : Nat :=
  l.foldl (fun acc c => acc * 10 + (c.toNat - 48)) 0

/-- boost::lexical_cast to std::size_t at its interface: succeeds exactly on
nonempty all-digit strings whose value fits a size_t; none models the thrown
bad_lexical_cast (non-numeric or overflowing input). -/
def lexical_cast_size_t (s : String) : Option Nat :=
  if s.data = [] then none
  else if s.data.all (fun c => c.isDigit) then
    if digitsVal s.data ≤ SIZE_T_MAX then some (digitsVal s.data) else none
  else none

/-- The observable events of a session, in program order: log statements
(the FUNCTION_TRACER trace, sizes, dropped-connection notices, invalid
packet diagnostics), issued asynchronous operations, handler executions. -/
inductive Event where
  | trace
  | log_size (n : Nat)
  | log_dropped (msg : String)
  | log_invalid_std (origin what : String)
  | log_invalid_twml (origin user_message dev_message : String)
  | log_request_name (name : String)
  | log_request_body
  | log_validated
  | issue_header_read
  | issue_body_read (n : Nat)
  | issue_write (bytes : String)
  | exec_handler (h : Nat)
deriving DecidableEq

/-- The per-session protocol state: the shared server configuration and
action factory, the raw length-header buffer, the body allocation size, the
current request metadata, the pending reply and the connection. -/
structure UmcdProtocol where
  server_config : Document
  action_factory : List (String × ActionInfo)
  raw_request_size : String
  request_body_size : Nat
  request_metadata : Document
  reply : WmlReply
  client_connection : Option Nat

/-- register_request_info, specialised to an action: append the descriptor
under its kind name to the factory. -/
def register_request_info (f : List (String × ActionInfo)) (name : String)
    (info : ActionInfo) : List (String × ActionInfo) :=
  f ++ [(name, info)]

/-- Modelled from the spec: the license action descriptor
(request_license_action.hpp is not in the sample). The kind-specific schema
is not shown; it is modelled as accepting every document. -/
def request_license_action : ActionInfo := ⟨fun _ => none, 0⟩

/-- Modelled from the spec: the upload action descriptor
(request_umc_upload_action.hpp is not in the sample). The kind-specific
schema is not shown; it is modelled as accepting every document. -/
def request_umc_upload_action : ActionInfo := ⟨fun _ => none, 1⟩

/-- umcd_protocol::umcd_protocol(const config&): store the server
configuration, create a fresh action factory and register the two supported
request kinds, in this order. -/
def umcd_protocol.mk_new (server_config : Document) : UmcdProtocol :=
  { server_config := server_config
  , action_factory :=
      register_request_info
        (register_request_info [] "request_license" request_license_action)
        "request_umc_upload" request_umc_upload_action
  , raw_request_size := ""
  , request_body_size := 0
  , request_metadata := Document.empty
  , reply := WmlReply.empty
  , client_connection := none }

/-- umcd_protocol::umcd_protocol(const umcd_protocol&): copy only the server
configuration and the shared action factory; every per-connection member is
default-constructed. -/
def umcd_protocol.copy (p : UmcdProtocol) : UmcdProtocol :=
  { server_config := p.server_config
  , action_factory := p.action_factory
  , raw_request_size := ""
  , request_body_size := 0
  , request_metadata := Document.empty
  , reply := WmlReply.empty
  , client_connection := none }

/-- umcd_protocol::complete_request: the write completion. On failure, log
the unable-to-send notice with the error message; nothing further is issued
in either case. -/
def complete_request (st : UmcdProtocol) (error : IOResult) :
    UmcdProtocol × List Event :=
  match error with
  | .ok => (st, [.trace])
  | .err m => (st, [.trace, .log_dropped m])

/-- umcd_protocol::async_send_reply: issue the asynchronous write of the
serialized reply; complete_request is its completion callback. -/
def async_send_reply (st : UmcdProtocol) : UmcdProtocol × List Event :=
  (st, [.trace, .issue_write st.reply.to_buffers])

/-- umcd_protocol::async_send_error: overwrite the reply with the error
reply built from the message of the condition, then send it. -/
def async_send_error (st : UmcdProtocol) (ec : ErrorCode) :
    UmcdProtocol × List Event :=
  async_send_reply { st with reply := make_error_reply ec.message }

/-- umcd_protocol::async_send_invalid_packet (std::exception overload): log
the invalid-request diagnostic with what(), then send the invalid_packet
error. -/
def async_send_invalid_packet_std (st : UmcdProtocol) (origin : String)
    (e : StdException) : UmcdProtocol × List Event :=
  let r := async_send_error st .invalid_packet
  (r.1, .log_invalid_std origin e.what :: r.2)

/-- umcd_protocol::async_send_invalid_packet (twml_exception overload): log
the invalid-request diagnostic with the user message and the dev message,
then send the invalid_packet error. -/
def async_send_invalid_packet_twml (st : UmcdProtocol) (origin : String)
    (e : TwmlException) : UmcdProtocol × List Event :=
  let r := async_send_error st .invalid_packet
  (r.1, .log_invalid_twml origin e.user_message e.dev_message :: r.2)

/-- Modelled at its interface: the what() text of the bad_lexical_cast
thrown on a malformed length header. -/
def bad_lexical_cast_what : String := "bad lexical cast"

/-- Modelled from the spec: the what() text of the factory error raised by
make_product on an unregistered kind (generic_factory is not in the
sample); an unresolved kind surfaces as an invalid-packet class error. -/
def unknown_request_what (name : String) : String :=
  "unknown request " ++ name

/-- umcd_protocol::read_request_body: the header-read completion. On a read
error, do nothing further. Otherwise cast the header to a size; a cast
failure is caught and answered with invalid_packet; a size above
REQUEST_HEADER_MAX_SIZE is answered with request_header_too_large before any
allocation; otherwise resize the body buffer to exactly that size and issue
the body read, with dispatch_request as its completion callback. -/
def read_request_body (st : UmcdProtocol) (error : IOResult) :
    UmcdProtocol × List Event :=
  match error with
  | .err _ => (st, [.trace])
  | .ok =>
    match lexical_cast_size_t st.raw_request_size with
    | none =>
        let r := async_send_invalid_packet_std st
          "umcd_protocol::read_request_body" ⟨bad_lexical_cast_what⟩
        (r.1, .trace :: r.2)
    | some request_size =>
        if request_size > REQUEST_HEADER_MAX_SIZE then
          let r := async_send_error st .request_header_too_large
          (r.1, .trace :: .log_size request_size :: r.2)
        else
          ({ st with request_body_size := request_size },
           [.trace, .log_size request_size, .issue_body_read request_size])

/-- umcd_protocol::dispatch_request: the body-read completion. On a read
error, do nothing further. Otherwise peek the request name, resolve the
descriptor in the factory, reset the request, read and validate the
metadata, and execute the handler; any exception out of these steps is
caught and answered with invalid_packet. -/
def dispatch_request (st : UmcdProtocol) (err : IOResult) (body : RawBody) :
    UmcdProtocol × List Event :=
  match err with
  | .err _ => (st, [.trace])
  | .ok =>
    match body with
    | .peekFails e =>
        let r := async_send_invalid_packet_std st
          "umcd_protocol::dispatch_request" e
        (r.1, .trace :: r.2)
    | .readFails name e =>
        match make_product st.action_factory name with
        | none =>
            let r := async_send_invalid_packet_std st
              "umcd_protocol::dispatch_request" ⟨unknown_request_what name⟩
            (r.1, .trace :: .log_request_name name :: r.2)
        | some _ =>
            let r := async_send_invalid_packet_std
              { st with request_metadata := Document.empty }
              "umcd_protocol::dispatch_request" e
            (r.1, .trace :: .log_request_name name :: .log_request_body :: r.2)
    | .wellFormed name doc =>
        match make_product st.action_factory name with
        | none =>
            let r := async_send_invalid_packet_std st
              "umcd_protocol::dispatch_request" ⟨unknown_request_what name⟩
            (r.1, .trace :: .log_request_name name :: r.2)
        | some info =>
            match info.validator doc with
            | some e =>
                let r := async_send_invalid_packet_twml
                  { st with request_metadata := Document.empty }
                  "umcd_protocol::dispatch_request" e
                (r.1, .trace :: .log_request_name name :: .log_request_body :: r.2)
            | none =>
                ({ st with request_metadata := doc },
                 [.trace, .log_request_name name, .log_request_body,
                  .log_validated, .exec_handler info.handler])

/-- umcd_protocol::handle_request: store the accepted connection, then issue
the header read, with read_request_body as its completion callback. -/
def handle_request (st : UmcdProtocol) (client : Nat) :
    UmcdProtocol × List Event :=
  ({ st with client_connection := some client }, [.trace, .issue_header_read])

/-- The environment of one connection: the values the asio reactor delivers
to each completion callback: the header read outcome and the bytes it put
into the header buffer, the body read outcome and the parse outcome of the
bytes it delivered, and the write outcome. -/
structure Oracle where
  header_result : IOResult
  header_bytes : String
  body_result : IOResult
  body_content : RawBody
  write_result : IOResult

/-- Recognizes an issued body read. -/
def isIssueBodyRead : Event → Bool
  | .issue_body_read _ => true
  | _ => false

/-- Recognizes an issued reply write. -/
def isIssueWrite : Event → Bool
  | .issue_write _ => true
  | _ => false

/-- Recognizes any issued asynchronous I/O operation. -/
def isIssue : Event → Bool
  | .issue_header_read => true
  | .issue_body_read _ => true
  | .issue_write _ => true
  | _ => false

/-- Recognizes a handler execution. -/
def isExec : Event → Bool
  | .exec_handler _ => true
  | _ => false

/-- Recognizes any log statement beyond the unconditional function tracer. -/
def isLog : Event → Bool
  | .log_size _ => true
  | .log_dropped _ => true
  | .log_invalid_std _ _ => true
  | .log_invalid_twml _ _ _ => true
  | .log_request_name _ => true
  | .log_request_body => true
  | .log_validated => true
  | _ => false

/-- One full session over one connection, chaining the completion callbacks
exactly as the source binds them: handle_request issues the header read;
its completion runs read_request_body after asio filled the header buffer;
if a body read was issued, its completion runs dispatch_request on the
delivered body; if a reply write was issued by any path, its completion runs
complete_request. The result is the final state and the concatenated event
trace in program order. -/
def run_session (st : UmcdProtocol) (client : Nat) (o : Oracle) :
    UmcdProtocol × List Event :=
  let r1 := handle_request st client
  let r2 := read_request_body
    { r1.1 with raw_request_size := o.header_bytes } o.header_result
  let r3 :=
    if r2.2.any isIssueBodyRead then
      dispatch_request r2.1 o.body_result o.body_content
    else (r2.1, [])
  let evs := r1.2 ++ r2.2 ++ r3.2
  let r4 :=
    if evs.any isIssueWrite then complete_request r3.1 o.write_result
    else (r3.1, [])
  (r4.1, evs ++ r4.2)

/-- Models forming boost::asio::buffer from the address of request_body[idx]
on a string of the given size: the element access is addressable exactly
when idx ≤ size (index size is the terminating character, defined since
C++11). -/
def string_elem_addressable (size idx : Nat) : Bool := decide (idx ≤ size)

/-- A key absent from every pair of an association list is not found by
List.lookup: the resolution is an exact, case-sensitive match. -/
theorem lookup_eq_none_of_no_key (l : List (String × ActionInfo)) (k : String)
    (h : ∀ p ∈ l, p.1 ≠ k) : l.lookup k = none := by
  induction l with
  | nil => rfl
  | cons a tl ih =>
      have hne : (k == a.1) = false :=
        beq_eq_false_iff_ne.mpr (Ne.symm (h a (List.mem_cons_self a tl)))
      obtain ⟨a1, a2⟩ := a
      simp only [List.lookup, hne]
      exact ih (fun p hp => h p (List.mem_cons_of_mem _ hp))

/-- C1: for every request whose parsed length header exceeds
REQUEST_HEADER_MAX_SIZE, the header-read completion replies with the
request_header_too_large error, never issues a body read, and leaves the
body allocation untouched. -/
theorem c1_header_too_large_no_body_read (st : UmcdProtocol) (n : Nat)
    (h1 : lexical_cast_size_t st.raw_request_size = some n)
    (h2 : n > REQUEST_HEADER_MAX_SIZE) :
    (read_request_body st .ok).1.reply
        = make_error_reply (ErrorCode.message .request_header_too_large)
    ∧ (read_request_body st .ok).2
        = [.trace, .log_size n, .trace,
           .issue_write (make_error_reply
             (ErrorCode.message .request_header_too_large)).to_buffers]
    ∧ (read_request_body st .ok).2.filter isIssueBodyRead = []
    ∧ (read_request_body st .ok).1.request_body_size = st.request_body_size := by
  have e : read_request_body st .ok
      = ({ st with reply :=
             make_error_reply (ErrorCode.message .request_header_too_large) },
         [.trace, .log_size n, .trace,
          .issue_write (make_error_reply
            (ErrorCode.message .request_header_too_large)).to_buffers]) := by
    simp only [read_request_body, h1]
    simp [h2, async_send_error, async_send_reply]
  rw [e]
  exact ⟨rfl, rfl, rfl, rfl⟩

/-- The state used by the C1 witness: a fresh protocol whose header buffer
declares 10000000 bytes. -/
def st_c1 : UmcdProtocol :=
  { umcd_protocol.mk_new Document.empty with raw_request_size := "10000000" }

/-- C1 witness: the oversized declared size 10000000 is rejected with
request_header_too_large and no body read. -/
theorem c1_witness :
    lexical_cast_size_t st_c1.raw_request_size = some 10000000
    ∧ 10000000 > REQUEST_HEADER_MAX_SIZE
    ∧ ((read_request_body st_c1 .ok).1.reply
        = make_error_reply (ErrorCode.message .request_header_too_large)
      ∧ (read_request_body st_c1 .ok).2
        = [.trace, .log_size 10000000, .trace,
           .issue_write (make_error_reply
             (ErrorCode.message .request_header_too_large)).to_buffers]
      ∧ (read_request_body st_c1 .ok).2.filter isIssueBodyRead = []
      ∧ (read_request_body st_c1 .ok).1.request_body_size
          = st_c1.request_body_size) :=
  ⟨by decide, by decide,
   c1_header_too_large_no_body_read st_c1 10000000 (by decide) (by decide)⟩

/-- C3: every length header that fails to parse as an unsigned integer is
answered with the invalid_packet error and no body read is attempted. -/
theorem c3_bad_header_invalid_packet (st : UmcdProtocol)
    (h : lexical_cast_size_t st.raw_request_size = none) :
    (read_request_body st .ok).1.reply
        = make_error_reply (ErrorCode.message .invalid_packet)
    ∧ (read_request_body st .ok).2
        = [.trace,
           .log_invalid_std "umcd_protocol::read_request_body"
             bad_lexical_cast_what,
           .trace,
           .issue_write (make_error_reply
             (ErrorCode.message .invalid_packet)).to_buffers]
    ∧ (read_request_body st .ok).2.filter isIssueBodyRead = []
    ∧ (read_request_body st .ok).1.request_body_size = st.request_body_size := by
  have e : read_request_body st .ok
      = ({ st with reply := make_error_reply (ErrorCode.message .invalid_packet) },
         [.trace,
          .log_invalid_std "umcd_protocol::read_request_body"
            bad_lexical_cast_what,
          .trace,
          .issue_write (make_error_reply
            (ErrorCode.message .invalid_packet)).to_buffers]) := by
    simp only [read_request_body, h]
    simp [async_send_invalid_packet_std, async_send_error, async_send_reply]
  rw [e]
  exact ⟨rfl, rfl, rfl, rfl⟩

/-- The state used by the C3 witness: a fresh protocol whose header buffer
holds a non-numeric length. -/
def st_c3 : UmcdProtocol :=
  { umcd_protocol.mk_new Document.empty with raw_request_size := "10kb!svn" }

/-- C3 witness: the non-numeric header is answered with invalid_packet and
no body read. -/
theorem c3_witness :
    lexical_cast_size_t st_c3.raw_request_size = none
    ∧ ((read_request_body st_c3 .ok).1.reply
        = make_error_reply (ErrorCode.message .invalid_packet)
      ∧ (read_request_body st_c3 .ok).2
        = [.trace,
           .log_invalid_std "umcd_protocol::read_request_body"
             bad_lexical_cast_what,
           .trace,
           .issue_write (make_error_reply
             (ErrorCode.message .invalid_packet)).to_buffers]
      ∧ (read_request_body st_c3 .ok).2.filter isIssueBodyRead = []
      ∧ (read_request_body st_c3 .ok).1.request_body_size
          = st_c3.request_body_size) :=
  ⟨by decide, c3_bad_header_invalid_packet st_c3 (by decide)⟩

/-- C2: for every registered kind name and schema-conforming body, the
body-read completion resolves the registered descriptor and invokes exactly
one matching handler — never zero, never more than one — and only after the
validation step succeeded (log_validated precedes the execution in the
trace, and the execution branch is guarded by the validator accepting). -/
theorem c2_dispatch_invokes_exactly_one_handler (st : UmcdProtocol)
    (name : String) (doc : Document) (info : ActionInfo)
    (h1 : make_product st.action_factory name = some info)
    (h2 : info.validator doc = none) :
    (dispatch_request st .ok (.wellFormed name doc)).2.filter isExec
        = [.exec_handler info.handler]
    ∧ (dispatch_request st .ok (.wellFormed name doc)).2
        = [.trace, .log_request_name name, .log_request_body, .log_validated,
           .exec_handler info.handler]
    ∧ (dispatch_request st .ok (.wellFormed name doc)).1.request_metadata
        = doc := by
  have e : dispatch_request st .ok (.wellFormed name doc)
      = ({ st with request_metadata := doc },
         [.trace, .log_request_name name, .log_request_body, .log_validated,
          .exec_handler info.handler]) := by
    simp only [dispatch_request, h1, h2]
  rw [e]
  exact ⟨rfl, rfl, rfl⟩

/-- C2 witness: a fresh protocol dispatching a conforming request_license
body invokes the license handler exactly once. -/
theorem c2_witness :
    make_product (umcd_protocol.mk_new Document.empty).action_factory
        "request_license" = some request_license_action
    ∧ request_license_action.validator Document.empty = none
    ∧ ((dispatch_request (umcd_protocol.mk_new Document.empty) .ok
          (.wellFormed "request_license" Document.empty)).2.filter isExec
        = [.exec_handler request_license_action.handler]
      ∧ (dispatch_request (umcd_protocol.mk_new Document.empty) .ok
          (.wellFormed "request_license" Document.empty)).2
        = [.trace, .log_request_name "request_license", .log_request_body,
           .log_validated, .exec_handler request_license_action.handler]
      ∧ (dispatch_request (umcd_protocol.mk_new Document.empty) .ok
          (.wellFormed "request_license" Document.empty)).1.request_metadata
        = Document.empty) :=
  ⟨rfl, rfl,
   c2_dispatch_invokes_exactly_one_handler (umcd_protocol.mk_new Document.empty)
     "request_license" Document.empty request_license_action rfl rfl⟩

/-- C4: every well-formed body naming a kind absent from the action factory
(resolution being an exact, case-sensitive lookup with no fallback) is
answered with the invalid_packet error and no handler is invoked. -/
theorem c4_unknown_kind_invalid_packet_no_handler (st : UmcdProtocol)
    (name : String) (doc : Document)
    (h : ∀ p ∈ st.action_factory, p.1 ≠ name) :
    make_product st.action_factory name = none
    ∧ (dispatch_request st .ok (.wellFormed name doc)).2.filter isExec = []
    ∧ (dispatch_request st .ok (.wellFormed name doc)).1.reply
        = make_error_reply (ErrorCode.message .invalid_packet)
    ∧ (dispatch_request st .ok (.wellFormed name doc)).2
        = [.trace, .log_request_name name,
           .log_invalid_std "umcd_protocol::dispatch_request"
             (unknown_request_what name),
           .trace,
           .issue_write (make_error_reply
             (ErrorCode.message .invalid_packet)).to_buffers] := by
  have hl : make_product st.action_factory name = none :=
    lookup_eq_none_of_no_key _ _ h
  have e : dispatch_request st .ok (.wellFormed name doc)
      = ({ st with reply := make_error_reply (ErrorCode.message .invalid_packet) },
         [.trace, .log_request_name name,
          .log_invalid_std "umcd_protocol::dispatch_request"
            (unknown_request_what name),
          .trace,
          .issue_write (make_error_reply
            (ErrorCode.message .invalid_packet)).to_buffers]) := by
    simp only [dispatch_request, hl]
    simp [async_send_invalid_packet_std, async_send_error, async_send_reply]
  refine ⟨hl, ?_, ?_, ?_⟩ <;> (rw [e]; try rfl)

/-- C4 witness: the kind Request_License differs from every registered key
by case, so the fresh protocol answers it with invalid_packet and invokes
no handler. -/
theorem c4_witness :
    (∀ p ∈ (umcd_protocol.mk_new Document.empty).action_factory,
        p.1 ≠ "Request_License")
    ∧ (make_product (umcd_protocol.mk_new Document.empty).action_factory
          "Request_License" = none
      ∧ (dispatch_request (umcd_protocol.mk_new Document.empty) .ok
          (.wellFormed "Request_License" Document.empty)).2.filter isExec = []
      ∧ (dispatch_request (umcd_protocol.mk_new Document.empty) .ok
          (.wellFormed "Request_License" Document.empty)).1.reply
          = make_error_reply (ErrorCode.message .invalid_packet)
      ∧ (dispatch_request (umcd_protocol.mk_new Document.empty) .ok
          (.wellFormed "Request_License" Document.empty)).2
          = [.trace, .log_request_name "Request_License",
             .log_invalid_std "umcd_protocol::dispatch_request"
               (unknown_request_what "Request_License"),
             .trace,
             .issue_write (make_error_reply
               (ErrorCode.message .invalid_packet)).to_buffers]) :=
  ⟨by decide,
   c4_unknown_kind_invalid_packet_no_handler (umcd_protocol.mk_new Document.empty)
     "Request_License" Document.empty (by decide)⟩

/-- A descriptor whose validator rejects every document with a fixed
user-facing message and a fixed developer message, exercising the
validation-failure path. -/
def reject_action : ActionInfo :=
  ⟨fun _ =>
    some ⟨"missing attribute umc_name", "validator failed at node root"⟩, 7⟩

/-- The state used for the C5 theorems: a protocol whose factory maps
request_umc_upload to the always-rejecting descriptor. -/
def st_c5 : UmcdProtocol :=
  { umcd_protocol.mk_new Document.empty with
      action_factory := [("request_umc_upload", reject_action)] }

/-- C5 counterexample: on a validation failure whose user-facing message is
"missing attribute umc_name", the reply does not carry that user-facing
message: the session passes only the invalid_packet condition to
async_send_error, so the reply carries the generic sanitized condition
message instead. -/
theorem c5_counterexample :
    reject_action.validator Document.empty
        = some ⟨"missing attribute umc_name", "validator failed at node root"⟩
    ∧ (dispatch_request st_c5 .ok
        (.wellFormed "request_umc_upload" Document.empty)).1.reply.error_message
        ≠ "missing attribute umc_name" := by
  decide

/-- C5 (amended): every body that fails schema validation for its declared
kind is answered with the invalid_packet error carrying the generic
sanitized message of that condition (not the user-facing message of the
failure); the handler is never invoked; the user-facing and the developer
messages are both preserved, independently, in the server-side log entry,
and neither reaches the reply. -/
theorem c5_validation_failure_invalid_packet (st : UmcdProtocol)
    (name : String) (doc : Document) (info : ActionInfo) (e : TwmlException)
    (h1 : make_product st.action_factory name = some info)
    (h2 : info.validator doc = some e) :
    (dispatch_request st .ok (.wellFormed name doc)).2.filter isExec = []
    ∧ (dispatch_request st .ok (.wellFormed name doc)).1.reply
        = make_error_reply (ErrorCode.message .invalid_packet)
    ∧ (dispatch_request st .ok (.wellFormed name doc)).2
        = [.trace, .log_request_name name, .log_request_body,
           .log_invalid_twml "umcd_protocol::dispatch_request"
             e.user_message e.dev_message,
           .trace,
           .issue_write (make_error_reply
             (ErrorCode.message .invalid_packet)).to_buffers] := by
  have eq1 : dispatch_request st .ok (.wellFormed name doc)
      = ({ { st with request_metadata := Document.empty } with
             reply := make_error_reply (ErrorCode.message .invalid_packet) },
         [.trace, .log_request_name name, .log_request_body,
          .log_invalid_twml "umcd_protocol::dispatch_request"
            e.user_message e.dev_message,
          .trace,
          .issue_write (make_error_reply
            (ErrorCode.message .invalid_packet)).to_buffers]) := by
    simp only [dispatch_request, h1, h2]
    simp [async_send_invalid_packet_twml, async_send_error, async_send_reply]
  rw [eq1]
  exact ⟨rfl, rfl, rfl⟩

/-- C5 witness: the always-rejecting descriptor produces the invalid_packet
reply, logs both messages, and never executes the handler. -/
theorem c5_witness :
    make_product st_c5.action_factory "request_umc_upload" = some reject_action
    ∧ reject_action.validator Document.empty
        = some ⟨"missing attribute umc_name", "validator failed at node root"⟩
    ∧ ((dispatch_request st_c5 .ok
          (.wellFormed "request_umc_upload" Document.empty)).2.filter isExec = []
      ∧ (dispatch_request st_c5 .ok
          (.wellFormed "request_umc_upload" Document.empty)).1.reply
          = make_error_reply (ErrorCode.message .invalid_packet)
      ∧ (dispatch_request st_c5 .ok
          (.wellFormed "request_umc_upload" Document.empty)).2
          = [.trace, .log_request_name "request_umc_upload", .log_request_body,
             .log_invalid_twml "umcd_protocol::dispatch_request"
               "missing attribute umc_name" "validator failed at node root",
             .trace,
             .issue_write (make_error_reply
               (ErrorCode.message .invalid_packet)).to_buffers]) :=
  ⟨rfl, rfl,
   c5_validation_failure_invalid_packet st_c5 "request_umc_upload"
     Document.empty reject_action
     ⟨"missing attribute umc_name", "validator failed at node root"⟩ rfl rfl⟩

/-- Case analysis of a whole session: the issued I/O operations always form
one of four traces: the header read alone (header read failed); header read
then one reply write (header-level error reply); header read then one body
read (body read failed, or the handler took over the reply); header read,
one body read, then one reply write (body-level error reply). Every write
carries the serialization of an error reply built from the fixed message of
one of the two error conditions. -/
theorem run_session_issue_shapes (st : UmcdProtocol) (c : Nat) (o : Oracle) :
    ((run_session st c o).2.filter isIssue = [.issue_header_read])
    ∨ (∃ ec : ErrorCode, (run_session st c o).2.filter isIssue
        = [.issue_header_read,
           .issue_write (make_error_reply ec.message).to_buffers])
    ∨ (∃ n, (run_session st c o).2.filter isIssue
        = [.issue_header_read, .issue_body_read n])
    ∨ (∃ n, ∃ ec : ErrorCode, (run_session st c o).2.filter isIssue
        = [.issue_header_read, .issue_body_read n,
           .issue_write (make_error_reply ec.message).to_buffers]) := by
  obtain ⟨hr, hb, br, bc, wr⟩ := o
  cases hr with
  | err m =>
      left
      cases wr <;> rfl
  | ok =>
      cases hc : lexical_cast_size_t hb with
      | none =>
          right; left
          refine ⟨.invalid_packet, ?_⟩
          simp only [run_session, handle_request, read_request_body, hc]
          cases wr <;> rfl
      | some n =>
          by_cases hn : n > REQUEST_HEADER_MAX_SIZE
          · right; left
            refine ⟨.request_header_too_large, ?_⟩
            simp only [run_session, handle_request, read_request_body, hc,
              if_pos hn]
            cases wr <;> rfl
          · cases br with
            | err m =>
                right; right; left
                refine ⟨n, ?_⟩
                simp only [run_session, handle_request, read_request_body, hc,
                  if_neg hn, dispatch_request]
                cases wr <;> rfl
            | ok =>
                cases bc with
                | peekFails e =>
                    right; right; right
                    refine ⟨n, .invalid_packet, ?_⟩
                    simp only [run_session, handle_request, read_request_body,
                      hc, if_neg hn, dispatch_request]
                    cases wr <;> rfl
                | readFails name e =>
                    rcases hl : make_product st.action_factory name with _ | info
                    · right; right; right
                      refine ⟨n, .invalid_packet, ?_⟩
                      simp only [run_session, handle_request, read_request_body,
                        hc, if_neg hn, dispatch_request, hl]
                      cases wr <;> rfl
                    · right; right; right
                      refine ⟨n, .invalid_packet, ?_⟩
                      simp only [run_session, handle_request, read_request_body,
                        hc, if_neg hn, dispatch_request, hl]
                      cases wr <;> rfl
                | wellFormed name doc =>
                    rcases hl : make_product st.action_factory name with _ | info
                    · right; right; right
                      refine ⟨n, .invalid_packet, ?_⟩
                      simp only [run_session, handle_request, read_request_body,
                        hc, if_neg hn, dispatch_request, hl]
                      cases wr <;> rfl
                    · rcases hv : info.validator doc with _ | e
                      · right; right; left
                        refine ⟨n, ?_⟩
                        simp only [run_session, handle_request, read_request_body,
                          hc, if_neg hn, dispatch_request, hl, hv]
                        cases wr <;> rfl
                      · right; right; right
                        refine ⟨n, .invalid_packet, ?_⟩
                        simp only [run_session, handle_request, read_request_body,
                          hc, if_neg hn, dispatch_request, hl, hv]
                        cases wr <;> rfl

/-- C6: every reply write issued during a session carries exactly the
serialization of an error reply built from the fixed sanitized message of
one of the two error conditions. The bytes are a function of the condition
alone, so they never depend on, nor contain, the developer diagnostic of
the failure that triggered them. -/
theorem c6_error_reply_bytes_sanitized (st : UmcdProtocol) (c : Nat)
    (o : Oracle) (w : String)
    (h : Event.issue_write w ∈ (run_session st c o).2) :
    ∃ ec : ErrorCode, w = (make_error_reply ec.message).to_buffers := by
  have hf : Event.issue_write w ∈ (run_session st c o).2.filter isIssue :=
    List.mem_filter.mpr ⟨h, rfl⟩
  rcases run_session_issue_shapes st c o with hs | ⟨ec, hs⟩ | ⟨n, hs⟩ | ⟨n, ec, hs⟩
  · rw [hs] at hf; simp at hf
  · rw [hs] at hf
    simp at hf
    exact ⟨ec, hf⟩
  · rw [hs] at hf; simp at hf
  · rw [hs] at hf
    simp at hf
    exact ⟨ec, hf⟩

/-- The oracle used by the C6 witness: a non-numeric header followed by an
unused body outcome. -/
def o_c6 : Oracle := ⟨.ok, "sizeounk", .ok, .peekFails ⟨"parse error"⟩, .ok⟩

/-- C6 witness: the write issued after a malformed header carries the
serialization of an error reply built from a fixed condition message. -/
theorem c6_witness :
    Event.issue_write
        (make_error_reply (ErrorCode.message .invalid_packet)).to_buffers
      ∈ (run_session (umcd_protocol.mk_new Document.empty) 0 o_c6).2
    ∧ ∃ ec : ErrorCode,
        (make_error_reply (ErrorCode.message .invalid_packet)).to_buffers
          = (make_error_reply ec.message).to_buffers :=
  ⟨by decide,
   c6_error_reply_bytes_sanitized (umcd_protocol.mk_new Document.empty) 0 o_c6
     (make_error_reply (ErrorCode.message .invalid_packet)).to_buffers
     (by decide)⟩

/-- C7: within one session the issued I/O operations occur strictly in the
order header read, body read, reply write, each at most once, every issue
following the completion of the previous phase (the completion callbacks
are the only places that issue the next operation), and exactly one header
read occurs: the session never begins a second request while a reply is
outstanding. -/
theorem c7_phase_order_single_inflight (st : UmcdProtocol) (c : Nat)
    (o : Oracle) :
    ((run_session st c o).2.filter isIssue = [.issue_header_read])
    ∨ (∃ w, (run_session st c o).2.filter isIssue
        = [.issue_header_read, .issue_write w])
    ∨ (∃ n, (run_session st c o).2.filter isIssue
        = [.issue_header_read, .issue_body_read n])
    ∨ (∃ n w, (run_session st c o).2.filter isIssue
        = [.issue_header_read, .issue_body_read n, .issue_write w]) := by
  rcases run_session_issue_shapes st c o with hs | ⟨ec, hs⟩ | ⟨n, hs⟩ | ⟨n, ec, hs⟩
  · exact Or.inl hs
  · exact Or.inr (Or.inl ⟨_, hs⟩)
  · exact Or.inr (Or.inr (Or.inl ⟨n, hs⟩))
  · exact Or.inr (Or.inr (Or.inr ⟨n, _, hs⟩))

/-- The oracle used by the C8 counterexample: the header read itself fails. -/
def o_c8 : Oracle := ⟨.err "connection reset", "", .ok, .peekFails ⟨""⟩, .ok⟩

/-- C8 counterexample: on a failed header read the session emits no log
statement at all beyond the unconditional function tracer: the claim that
every I/O failure is logged is false for read failures (only write failures
are logged by complete_request). -/
theorem c8_counterexample :
    o_c8.header_result = IOResult.err "connection reset"
    ∧ (run_session (umcd_protocol.mk_new Document.empty) 0 o_c8).2
        = [.trace, .issue_header_read, .trace]
    ∧ (run_session (umcd_protocol.mk_new Document.empty) 0 o_c8).2.filter isLog
        = [] := by
  decide

/-- C8 (amended): on every I/O failure no error reply is sent and the
session issues no further reads or writes and leaves its state untouched
(no retry); a failed write is logged with the dropped-connection notice,
while failed reads are silently abandoned. -/
theorem c8_io_failure_terminal (st : UmcdProtocol) (m : String) (b : RawBody) :
    read_request_body st (.err m) = (st, [.trace])
    ∧ dispatch_request st (.err m) b = (st, [.trace])
    ∧ complete_request st (.err m) = (st, [.trace, .log_dropped m]) :=
  ⟨rfl, rfl, rfl⟩

/-- C9: a declared body size of zero is not a framing error: the session
logs the size, issues a read of exactly zero bytes (the resized body buffer
stays within its addressable range: index 0 of a zero-sized string is the
terminating character, addressable since C++11) and proceeds to
dispatch_request on the empty body. -/
theorem c9_zero_size_permitted (st : UmcdProtocol) (c : Nat) (o : Oracle)
    (h1 : o.header_result = .ok)
    (h2 : lexical_cast_size_t o.header_bytes = some 0) :
    (([.trace, .issue_header_read, .trace, .log_size 0, .issue_body_read 0]
        ++ (dispatch_request
              { server_config := st.server_config
              , action_factory := st.action_factory
              , raw_request_size := o.header_bytes
              , request_body_size := 0
              , request_metadata := st.request_metadata
              , reply := st.reply
              , client_connection := some c }
              o.body_result o.body_content).2)
      <+: (run_session st c o).2)
    ∧ string_elem_addressable 0 0 = true := by
  constructor
  · simp only [run_session, handle_request, read_request_body, h1, h2,
      if_neg (by decide : ¬ ((0:Nat) > REQUEST_HEADER_MAX_SIZE))]
    exact List.prefix_append _ _
  · rfl

/-- The oracle used by the C9 witness: a zero length header followed by an
empty well-formed license request body. -/
def o_c9 : Oracle :=
  ⟨.ok, "00000000", .ok, .wellFormed "request_license" Document.empty, .ok⟩

/-- C9 witness: the zero-padded zero header leads to a zero-byte body read
and on to dispatch of the empty body. -/
theorem c9_witness :
    o_c9.header_result = IOResult.ok
    ∧ lexical_cast_size_t o_c9.header_bytes = some 0
    ∧ ((([.trace, .issue_header_read, .trace, .log_size 0,
          .issue_body_read 0]
        ++ (dispatch_request
              { server_config := (umcd_protocol.mk_new Document.empty).server_config
              , action_factory := (umcd_protocol.mk_new Document.empty).action_factory
              , raw_request_size := o_c9.header_bytes
              , request_body_size := 0
              , request_metadata := (umcd_protocol.mk_new Document.empty).request_metadata
              , reply := (umcd_protocol.mk_new Document.empty).reply
              , client_connection := some 0 }
              o_c9.body_result o_c9.body_content).2)
        <+: (run_session (umcd_protocol.mk_new Document.empty) 0 o_c9).2)
      ∧ string_elem_addressable 0 0 = true) :=
  ⟨rfl, by decide,
   c9_zero_size_permitted (umcd_protocol.mk_new Document.empty) 0 o_c9
     rfl (by decide)⟩

/-- The header-read completion changes neither the action factory nor the
server configuration, on any of its paths. -/
theorem read_request_body_preserves_shared (st : UmcdProtocol) (e : IOResult) :
    (read_request_body st e).1.action_factory = st.action_factory
    ∧ (read_request_body st e).1.server_config = st.server_config := by
  cases e with
  | err m => exact ⟨rfl, rfl⟩
  | ok =>
      cases hc : lexical_cast_size_t st.raw_request_size with
      | none =>
          simp [read_request_body, hc, async_send_invalid_packet_std,
            async_send_error, async_send_reply]
      | some n =>
          by_cases hn : n > REQUEST_HEADER_MAX_SIZE
          · simp [read_request_body, hc, hn, async_send_error, async_send_reply]
          · simp [read_request_body, hc, hn]

/-- The body-read completion changes neither the action factory nor the
server configuration, on any of its paths. -/
theorem dispatch_request_preserves_shared (st : UmcdProtocol) (e : IOResult)
    (b : RawBody) :
    (dispatch_request st e b).1.action_factory = st.action_factory
    ∧ (dispatch_request st e b).1.server_config = st.server_config := by
  cases e with
  | err m => exact ⟨rfl, rfl⟩
  | ok =>
      cases b with
      | peekFails ex =>
          simp [dispatch_request, async_send_invalid_packet_std,
            async_send_error, async_send_reply]
      | readFails name ex =>
          rcases hl : make_product st.action_factory name with _ | i <;>
            simp [dispatch_request, hl, async_send_invalid_packet_std,
              async_send_error, async_send_reply]
      | wellFormed name doc =>
          rcases hl : make_product st.action_factory name with _ | i
          · simp [dispatch_request, hl, async_send_invalid_packet_std,
              async_send_error, async_send_reply]
          · rcases hv : i.validator doc with _ | ex <;>
              simp [dispatch_request, hl, hv, async_send_invalid_packet_twml,
                async_send_error, async_send_reply]

/-- The write completion never changes the session state. -/
theorem complete_request_state (st : UmcdProtocol) (e : IOResult) :
    (complete_request st e).1 = st := by
  cases e <;> rfl

/-- A whole session changes neither the action factory nor the server
configuration. -/
theorem run_session_preserves_shared (st : UmcdProtocol) (c : Nat)
    (o : Oracle) :
    (run_session st c o).1.action_factory = st.action_factory
    ∧ (run_session st c o).1.server_config = st.server_config := by
  constructor
  · simp only [run_session]
    split <;> split
    all_goals try rw [complete_request_state]
    all_goals try rw [(dispatch_request_preserves_shared _ _ _).1]
    all_goals exact (read_request_body_preserves_shared _ _).1
  · simp only [run_session]
    split <;> split
    all_goals try rw [complete_request_state]
    all_goals try rw [(dispatch_request_preserves_shared _ _ _).2]
    all_goals exact (read_request_body_preserves_shared _ _).2

/-- C10: construction registers exactly the kinds request_license and
request_umc_upload, in that order; no operation of the request-handling
cycle changes the factory or the server configuration afterwards; copy
construction shares exactly the server configuration and the factory and
carries over no per-connection request, reply, buffer or connection state. -/
theorem c10_registry_construction_and_sharing (cfg : Document)
    (p st : UmcdProtocol) (c : Nat) (e : IOResult) (b : RawBody)
    (ec : ErrorCode) (o : Oracle) :
    (umcd_protocol.mk_new cfg).action_factory.map Prod.fst
        = ["request_license", "request_umc_upload"]
    ∧ (umcd_protocol.mk_new cfg).server_config = cfg
    ∧ umcd_protocol.copy p
        = { server_config := p.server_config
          , action_factory := p.action_factory
          , raw_request_size := ""
          , request_body_size := 0
          , request_metadata := Document.empty
          , reply := WmlReply.empty
          , client_connection := none }
    ∧ (handle_request st c).1.action_factory = st.action_factory
    ∧ (handle_request st c).1.server_config = st.server_config
    ∧ (read_request_body st e).1.action_factory = st.action_factory
    ∧ (dispatch_request st e b).1.action_factory = st.action_factory
    ∧ (complete_request st e).1.action_factory = st.action_factory
    ∧ (async_send_error st ec).1.action_factory = st.action_factory
    ∧ (run_session st c o).1.action_factory = st.action_factory
    ∧ (run_session st c o).1.server_config = st.server_config :=
  ⟨rfl, rfl, rfl, rfl, rfl,
   (read_request_body_preserves_shared st e).1,
   (dispatch_request_preserves_shared st e b).1,
   by rw [complete_request_state],
   rfl,
   (run_session_preserves_shared st c o).1,
   (run_session_preserves_shared st c o).2⟩

end Umcd
